import Mathlib

/-!
Verification development for the `target-sherpaan` Singer target.

The Python sources under `target_sherpaan/` are shallowly embedded below:

* `PyVal` / `PyList` / `PyDict` model the dynamically typed Python values
  (strings, ints, bools, `None`, lists, dicts) that flow through the sink.
* `escapeList` models `xml.sax.saxutils.escape` with default entities.
* `build_add_ordered_purchase_envelope` and
  `build_change_purchase2_envelope` model the two f-string envelope
  builders of `sinks.py`.
* `normalizeISO` / `format_expected_date` model the expected-date
  normalization block of `_build_change_purchase2_envelope`, including the
  regex prefix match, the `Z` replacement, `datetime.fromisoformat`
  (extended ISO format, fraction of exactly 3 or 6 digits, as in classic
  CPython) and `strftime("%Y-%m-%dT%H:%M:%S.000")` (with glibc-style
  unpadded `%Y`).
* `extract_purchase_order_number` models the response walker of
  `sinks.py`.
* `retryGo` / `call_soap_service` model the tenacity retry decorator
  (`stop_after_attempt(3)`, `wait_exponential(multiplier=1, min=4, max=10)`)
  of `client.py`; the HTTP layer is an oracle `f : Nat → Except ε α`
  giving the outcome of each attempt.
* `parse_soap_response_from_dict` models `_parse_soap_response` after
  `xmltodict.parse`; exceptions are an `Except Unit` layer absorbed by the
  outer handler.
* `json_loads` models the fragment of Python `json.loads` exercised here
  (objects, arrays, strings with simple escapes, integers, booleans,
  null); floats and `\u` escapes are out of the modelled fragment and
  yield `none`.
* `process_record` models `PurchaseOrderSink.process_record`; the SOAP
  client is an oracle `respond`, `datetime.now()` is the parameter `now`,
  and the function returns the outcome together with the list of SOAP
  calls issued.
-/

/-! Python values as produced by `xmltodict` / `json.loads` and carried in
Singer records: strings, integers, booleans, `None`, lists and dicts.
Dicts are insertion-ordered key/value sequences, exactly like Python
dicts. -/
mutual
inductive PyVal where
  | str (s : String)
  | num (n : Int)
  | bool (b : Bool)
  | none
  | list (xs : PyList)
  | dict (es : PyDict)
inductive PyList where
  | nil
  | cons (v : PyVal) (rest : PyList)
inductive PyDict where
  | nil
  | cons (k : String) (v : PyVal) (rest : PyDict)
end

/-- Python `d[key]` / `key in d` membership for dicts: first binding of the
key wins (Python dicts cannot hold duplicate keys, so assoc lists with the
first-binding convention are a faithful superset). -/
def PyDict.lookup (key : String) : PyDict → Option PyVal
  | .nil => Option.none
  | .cons k v rest => if k = key then some v else PyDict.lookup key rest

/-- Append of dict entry sequences (used to state theorems about dicts with
a distinguished entry in the middle). -/
def PyDict.app : PyDict → PyDict → PyDict
  | .nil, d => d
  | .cons k v rest, d => .cons k v (PyDict.app rest d)

instance : Append PyDict := ⟨PyDict.app⟩

def PyList.toList : PyList → List PyVal
  | .nil => []
  | .cons v rest => v :: PyList.toList rest

/-- Python truthiness: empty string/list/dict, `0`, `False` and `None` are
falsy, everything else is truthy. -/
def truthy : PyVal → Bool
  | .str s => !(s == "")
  | .num n => !(n == 0)
  | .bool b => b
  | .none => false
  | .list xs => match xs with | .nil => false | _ => true
  | .dict es => match es with | .nil => false | _ => true

/-! Python `str(...)` (and the `repr` it applies to elements of containers).
String elements inside containers are shown with quotes but without
repr-level escaping of embedded quotes; the theorems below never take
`str` of a container holding such strings. -/
mutual
def pyStr : PyVal → String
  | .str s => s
  | .num n => toString n
  | .bool b => if b then "True" else "False"
  | .none => "None"
  | .dict es => "\x7b" ++ pyReprDict es ++ "\x7d"
  | .list xs => "[" ++ pyReprList xs ++ "]"
def pyRepr : PyVal → String
  | .str s => "\x27" ++ s ++ "\x27"
  | .num n => toString n
  | .bool b => if b then "True" else "False"
  | .none => "None"
  | .dict es => "\x7b" ++ pyReprDict es ++ "\x7d"
  | .list xs => "[" ++ pyReprList xs ++ "]"
def pyReprDict : PyDict → String
  | .nil => ""
  | .cons k v .nil => "\x27" ++ k ++ "\x27: " ++ pyRepr v
  | .cons k v rest => "\x27" ++ k ++ "\x27: " ++ pyRepr v ++ ", " ++ pyReprDict rest
def pyReprList : PyList → String
  | .nil => ""
  | .cons v .nil => pyRepr v
  | .cons v rest => pyRepr v ++ ", " ++ pyReprList rest
end

/-- Python `s.isdigit()` restricted to ASCII digit strings: non-empty and
all characters are digits. -/
def isDigitStr (s : String) : Bool :=
  !(s == "") && s.data.all Char.isDigit

/-! ## XML escaping (`xml.sax.saxutils.escape` with default entities)

`escape(data)` replaces `&` by `&amp;`, then `<` by `&lt;`, then `>` by
`&gt;`.  Since `&amp;` contains no `<` or `>` and later replacements only
introduce fresh `&` characters that are never reprocessed, the sequential
replacement is exactly the character-wise expansion below. Quotes are NOT
escaped: `saxutils.escape` only touches them when an explicit entity map
is passed, which `sinks.py` does not do. -/

def escapeChar (c : Char) : List Char :=
  if c = '&' then "&amp;".data
  else if c = '<' then "&lt;".data
  else if c = '>' then "&gt;".data
  else [c]

def escapeList (l : List Char) : List Char :=
  l.flatMap escapeChar

def escapeS (s : String) : String :=
  String.mk (escapeList s.data)

/-- Does a character list start with one of the five XML predefined
entity bodies (after an ampersand)? -/
def entityStart (l : List Char) : Bool :=
  List.isPrefixOf "amp;".data l || List.isPrefixOf "lt;".data l ||
  List.isPrefixOf "gt;".data l || List.isPrefixOf "quot;".data l ||
  List.isPrefixOf "apos;".data l

/-- No unescaped `&`, `<`, `>` in element text content: every ampersand
begins a predefined entity reference and the angle brackets never occur
raw. -/
def noUnescapedAmpLtGt : List Char → Bool
  | [] => true
  | c :: rest =>
    if c = '&' then entityStart rest && noUnescapedAmpLtGt rest
    else if c = '<' ∨ c = '>' then false
    else noUnescapedAmpLtGt rest

/-- The five-character version demanded by the specification: additionally
no raw double quote (codepoint 34) and no raw apostrophe (codepoint 39). -/
def noUnescapedFive : List Char → Bool
  | [] => true
  | c :: rest =>
    if c = '&' then entityStart rest && noUnescapedFive rest
    else if c = '<' ∨ c = '>' ∨ c = Char.ofNat 34 ∨ c = Char.ofNat 39 then false
    else noUnescapedFive rest

/-! ## Envelope builders (`sinks.py`) -/

/-- `PurchaseOrderSink._build_add_ordered_purchase_envelope`: the SOAP 1.2
envelope for `AddOrderedPurchase`, an f-string with each interpolated
value passed through `escape(str(...))`. Argument stringification
(`str(...)`) is applied by the caller as `pyStr`. -/
def build_add_ordered_purchase_envelope
    (security_code supplier_code reference warehouse_code : String) : String :=
  "<?xml version=\"1.0\" encoding=\"utf-8\"?>\n<soap12:Envelope xmlns:xsi=\"http://www.w3.org/2001/XMLSchema-instance\" xmlns:xsd=\"http://www.w3.org/2001/XMLSchema\" xmlns:soap12=\"http://www.w3.org/2003/05/soap-envelope\">\n  <soap12:Body>\n    <AddOrderedPurchase xmlns=\"http://sherpa.sherpaan.nl/\">\n      <securityCode>"
    ++ escapeS security_code
    ++ "</securityCode>\n      <supplierCode>"
    ++ escapeS supplier_code
    ++ "</supplierCode>\n      <reference>"
    ++ escapeS reference
    ++ "</reference>\n      <warehouseCode>"
    ++ escapeS warehouse_code
    ++ "</warehouseCode>\n    </AddOrderedPurchase>\n  </soap12:Body>\n</soap12:Envelope>"

/-- The element text contents interpolated into the `AddOrderedPurchase`
envelope, in document order: exactly the four escaped values (everything
else in the template is fixed markup, see
`add_envelope_decomposition`). -/
def addEnvelopeTextContents (security_code supplier_code reference warehouse_code : String) :
    List String :=
  [escapeS security_code, escapeS supplier_code, escapeS reference, escapeS warehouse_code]

/-- The `AddOrderedPurchase` envelope is fixed markup with the four escaped
values as the only element text content. -/
theorem add_envelope_decomposition (sc sup ref wh : String) :
    build_add_ordered_purchase_envelope sc sup ref wh =
    "<?xml version=\"1.0\" encoding=\"utf-8\"?>\n<soap12:Envelope xmlns:xsi=\"http://www.w3.org/2001/XMLSchema-instance\" xmlns:xsd=\"http://www.w3.org/2001/XMLSchema\" xmlns:soap12=\"http://www.w3.org/2003/05/soap-envelope\">\n  <soap12:Body>\n    <AddOrderedPurchase xmlns=\"http://sherpa.sherpaan.nl/\">\n      <securityCode>"
      ++ (addEnvelopeTextContents sc sup ref wh).get! 0
      ++ "</securityCode>\n      <supplierCode>"
      ++ (addEnvelopeTextContents sc sup ref wh).get! 1
      ++ "</supplierCode>\n      <reference>"
      ++ (addEnvelopeTextContents sc sup ref wh).get! 2
      ++ "</reference>\n      <warehouseCode>"
      ++ (addEnvelopeTextContents sc sup ref wh).get! 3
      ++ "</warehouseCode>\n    </AddOrderedPurchase>\n  </soap12:Body>\n</soap12:Envelope>" := rfl

/-! ## Date handling (`datetime` model)

`_build_change_purchase2_envelope` normalizes the order-level
`created_at` with a regex prefix match, truncation/padding of the
fractional seconds to 3 digits, `datetime.fromisoformat`, and
`strftime("%Y-%m-%dT%H:%M:%S.000")`; failures of any kind fall back to
`datetime.now() + timedelta(days=30)` in the same format. -/

/-- The decimal digit characters (argument is taken mod ten by clamping:
all call sites pass values below ten). -/
def digitChar : Nat → Char
  | 0 => '0' | 1 => '1' | 2 => '2' | 3 => '3' | 4 => '4'
  | 5 => '5' | 6 => '6' | 7 => '7' | 8 => '8' | _ => '9'

def digitVal (c : Char) : Nat := c.toNat - 48

/-- Zero-padded two-digit rendering (`%02d`, for values below 100). -/
def pad2 (n : Nat) : List Char := [digitChar (n / 10), digitChar (n % 10)]

/-- Zero-padded four-digit rendering (for values below 10000), as in the
`\d{4}` part of the regex and ISO-8601 year fields. -/
def pad4 (n : Nat) : List Char :=
  [digitChar (n / 1000), digitChar (n / 100 % 10), digitChar (n / 10 % 10), digitChar (n % 10)]

/-- Unpadded decimal rendering of a natural number (glibc `%Y`). -/
def natToDecAux : Nat → Nat → List Char
  | 0, _ => []
  | fuel + 1, n => if n < 10 then [digitChar n] else natToDecAux fuel (n / 10) ++ [digitChar (n % 10)]

def natToDec (n : Nat) : List Char := natToDecAux (n + 1) n

/-- Calendar date-time as held by a Python `datetime` (the timezone of an
aware datetime is dropped by `strftime` and therefore not stored). -/
structure DateTime where
  year : Nat
  month : Nat
  day : Nat
  hour : Nat
  minute : Nat
  second : Nat
deriving DecidableEq, Repr

def isLeap (y : Nat) : Bool := y % 4 = 0 && (y % 100 ≠ 0 || y % 400 = 0)

def daysInMonth (y m : Nat) : Nat :=
  if m = 2 then (if isLeap y then 29 else 28)
  else if m = 4 ∨ m = 6 ∨ m = 9 ∨ m = 11 then 30
  else 31

/-- Parse exactly two digit characters. -/
def parse2 : List Char → Option (Nat × List Char)
  | c1 :: c2 :: rest =>
    if c1.isDigit && c2.isDigit then some (digitVal c1 * 10 + digitVal c2, rest) else Option.none
  | _ => Option.none

/-- Parse exactly four digit characters. -/
def parse4 : List Char → Option (Nat × List Char)
  | c1 :: c2 :: c3 :: c4 :: rest =>
    if c1.isDigit && c2.isDigit && c3.isDigit && c4.isDigit then
      some (((digitVal c1 * 10 + digitVal c2) * 10 + digitVal c3) * 10 + digitVal c4, rest)
    else Option.none
  | _ => Option.none

def expectC (c : Char) : List Char → Option (List Char)
  | c' :: rest => if c' = c then some rest else Option.none
  | [] => Option.none

/-- Longest digit run at the head of the list (`\d+`, greedy). -/
def takeDigits : List Char → List Char × List Char
  | [] => ([], [])
  | c :: rest =>
    if c.isDigit then
      let (ds, r) := takeDigits rest
      (c :: ds, r)
    else ([], c :: rest)

/-- Optional UTC offset suffix `[+-]HH:MM` ending the string; the offset is
validated like Python `timezone(timedelta(...))`: its absolute size must
be under 24 hours. Returns the parsed fields on success. -/
def parseOffsetEnd (cs : List Char) (y mo d h mi s : Nat) : Option DateTime :=
  match cs with
  | [] => some ⟨y, mo, d, h, mi, s⟩
  | c :: r =>
    if c = '+' ∨ c = '-' then
      match parse2 r with
      | some (oh, r2) =>
        match expectC ':' r2 with
        | some r3 =>
          match parse2 r3 with
          | some (om, r4) =>
            if r4 = [] ∧ oh * 60 + om < 1440 then some ⟨y, mo, d, h, mi, s⟩ else Option.none
          | Option.none => Option.none
        | Option.none => Option.none
      | Option.none => Option.none
    else Option.none

/-- `datetime.fromisoformat` (classic CPython, extended ISO format):
`YYYY-MM-DD[*HH[:MM[:SS[.fff[fff]]]]][+HH:MM]` with range validation.
The separator between date and time may be any single character; the
fraction must have exactly 3 or 6 digits. -/
def fromisoformat (cs : List Char) : Option DateTime :=
  match parse4 cs with
  | Option.none => Option.none
  | some (y, r1) =>
    if y = 0 then Option.none else
    match expectC '-' r1 with
    | Option.none => Option.none
    | some r2 =>
      match parse2 r2 with
      | Option.none => Option.none
      | some (mo, r3) =>
        if mo < 1 ∨ 12 < mo then Option.none else
        match expectC '-' r3 with
        | Option.none => Option.none
        | some r4 =>
          match parse2 r4 with
          | Option.none => Option.none
          | some (d, r5) =>
            if d < 1 ∨ daysInMonth y mo < d then Option.none else
            match r5 with
            | [] => some ⟨y, mo, d, 0, 0, 0⟩
            | _sep :: r6 =>
              match parse2 r6 with
              | Option.none => Option.none
              | some (h, r7) =>
                if 23 < h then Option.none else
                match r7 with
                | ':' :: r8 =>
                  match parse2 r8 with
                  | Option.none => Option.none
                  | some (mi, r9) =>
                    if 59 < mi then Option.none else
                    match r9 with
                    | ':' :: r10 =>
                      match parse2 r10 with
                      | Option.none => Option.none
                      | some (s, r11) =>
                        if 59 < s then Option.none else
                        match r11 with
                        | '.' :: r12 =>
                          match takeDigits r12 with
                          | (fr, r13) =>
                            if fr.length = 3 ∨ fr.length = 6 then
                              parseOffsetEnd r13 y mo d h mi s
                            else Option.none
                        | _ => parseOffsetEnd r11 y mo d h mi s
                    | _ => parseOffsetEnd r9 y mo d h mi 0
                | _ => parseOffsetEnd r7 y mo d h 0 0

/-- `dt.strftime("%Y-%m-%dT%H:%M:%S.000")`: unpadded year (glibc `%Y`),
zero-padded two-digit fields, and a literal `.000` fraction — the
fractional seconds of `dt` are NOT printed. -/
def strftime000 (dt : DateTime) : List Char :=
  natToDec dt.year ++ '-' :: pad2 dt.month ++ '-' :: pad2 dt.day ++
  'T' :: pad2 dt.hour ++ ':' :: pad2 dt.minute ++ ':' :: pad2 dt.second ++
  ['.', '0', '0', '0']

/-- The `\d{4}-\d{2}-\d{2}T\d{2}:\d{2}:\d{2}` part of the regex in
`_build_change_purchase2_envelope` (group 1): succeeds iff the input
starts with that shape, returning the 19 matched characters verbatim and
the remainder. -/
def matchBase : List Char → Option (List Char × List Char)
  | y1 :: y2 :: y3 :: y4 :: '-' :: m1 :: m2 :: '-' :: d1 :: d2 :: 'T' ::
      h1 :: h2 :: ':' :: n1 :: n2 :: ':' :: s1 :: s2 :: rest =>
    if y1.isDigit && y2.isDigit && y3.isDigit && y4.isDigit && m1.isDigit && m2.isDigit &&
        d1.isDigit && d2.isDigit && h1.isDigit && h2.isDigit && n1.isDigit && n2.isDigit &&
        s1.isDigit && s2.isDigit then
      some ([y1, y2, y3, y4, '-', m1, m2, '-', d1, d2, 'T', h1, h2, ':', n1, n2, ':', s1, s2],
            rest)
    else Option.none
  | _ => Option.none

/-- The optional regex group 3, `([+-]\d{2}:\d{2}|Z)?`: matched greedily
after the digit run; on failure the group is empty and the rest is left
in place (it is dropped by the f-string rebuild, like any text after the
regex match). -/
def matchTz (cs : List Char) : List Char × List Char :=
  match cs with
  | 'Z' :: r => (['Z'], r)
  | c :: a :: b :: ':' :: d :: e :: r =>
    if (c = '+' ∨ c = '-') && a.isDigit && b.isDigit && d.isDigit && e.isDigit then
      ([c, a, b, ':', d, e], r)
    else ([], cs)
  | _ => ([], cs)

/-- `re.match` of the full pattern
`(\d{4}-\d{2}-\d{2}T\d{2}:\d{2}:\d{2})\.(\d+)([+-]\d{2}:\d{2}|Z)?`:
prefix match returning groups 1-3 (any trailing text is discarded by the
caller). -/
def matchIsoHead (cs : List Char) : Option (List Char × List Char × List Char) :=
  match matchBase cs with
  | Option.none => Option.none
  | some (base, rest) =>
    match rest with
    | '.' :: r2 =>
      match takeDigits r2 with
      | (fr, r3) =>
        if fr = [] then Option.none
        else some (base, fr, (matchTz r3).1)
    | _ => Option.none

/-- Python `str.replace("Z", "+00:00")`: every occurrence of `Z` anywhere
in the string is replaced. -/
def replaceZ (l : List Char) : List Char :=
  l.flatMap (fun c => if c = 'Z' then "+00:00".data else [c])

/-- Left-justified fill to 3 with zeros after truncation to 3:
`microseconds[:3].ljust(3, "0")`. -/
def ljust3 (l : List Char) : List Char :=
  l.take 3 ++ List.replicate (3 - (l.take 3).length) '0'

/-- The string-normalization pipeline of
`_build_change_purchase2_envelope` for a string `created_at`: regex
prefix match; on success rebuild `base.fff` plus the timezone group with
`Z` replaced by `+00:00`; on failure replace `Z` in the whole input; then
`datetime.fromisoformat` and `strftime("%Y-%m-%dT%H:%M:%S.000")`.
`Option.none` is the `except`-caught parse failure. -/
def normalizeISO (s : String) : Option String :=
  match matchIsoHead s.data with
  | some (base, frac, tz) =>
    (fromisoformat (replaceZ (base ++ '.' :: ljust3 frac ++ tz))).map
      (fun dt => String.mk (strftime000 dt))
  | Option.none =>
    (fromisoformat (replaceZ s.data)).map (fun dt => String.mk (strftime000 dt))

/-- Advance a calendar date by one day (time of day unchanged), with
month/year rollover — one step of `timedelta(days=1)`. -/
def nextDay (dt : DateTime) : DateTime :=
  if dt.day < daysInMonth dt.year dt.month then { dt with day := dt.day + 1 }
  else if dt.month < 12 then { dt with month := dt.month + 1, day := 1 }
  else { dt with year := dt.year + 1, month := 1, day := 1 }

/-- `dt + timedelta(days=n)` on the calendar part. -/
def addDays : Nat → DateTime → DateTime
  | 0, dt => dt
  | n + 1, dt => addDays n (nextDay dt)

/-- The fallback date `(datetime.now() + timedelta(days=30)).strftime("%Y-%m-%dT%H:%M:%S.000")`
with `datetime.now()` supplied as a parameter. -/
def fallback30 (now : DateTime) : String :=
  String.mk (strftime000 (addDays 30 now))

/-- The full `formatted_date` computation of
`_build_change_purchase2_envelope` (lines 100-132 of `sinks.py`):
`created_at` absent or falsy, or any parse failure, falls back to
`now + 30 days`; a truthy non-string `created_at` is carried through
unchanged (it is stringified at interpolation time, modelled by `pyStr`
here since the envelope applies `escape(str(...))` to it). The function
is total: the `except` handler makes parse failure non-fatal. -/
def format_expected_date (created_at : Option PyVal) (now : DateTime) : String :=
  match created_at with
  | Option.none => fallback30 now
  | some v =>
    if truthy v then
      match v with
      | PyVal.str s =>
        match normalizeISO s with
        | some out => out
        | Option.none => fallback30 now
      | _ => pyStr v
    else fallback30 now

/-- Recognizer for the fixed output shape `YYYY-MM-DDTHH:MM:SS.mmm`:
exactly 23 characters, digits in the data positions, fixed punctuation. -/
def isFixedFormat (s : String) : Bool :=
  match s.data with
  | [a, b, c, d, '-', e, f, '-', g, h, 'T', i, j, ':', k, l, ':', m, n, '.', o, p, q] =>
    a.isDigit && b.isDigit && c.isDigit && d.isDigit && e.isDigit && f.isDigit &&
    g.isDigit && h.isDigit && i.isDigit && j.isDigit && k.isDigit && l.isDigit &&
    m.isDigit && n.isDigit && o.isDigit && p.isDigit && q.isDigit
  | _ => false

/-- One `<ChangePurchaseLine>` block of
`_build_change_purchase2_envelope`: `line.get(...)` with the source's
defaults (`product_remoteId` → `""`, `supplier_item_code` → the item
code value, `quantity` → `0`), each interpolated via `escape(str(...))`.
A non-dict line raises `AttributeError` at `line.get` (the error value). -/
def change_purchase_line_xml (line : PyVal) (formatted_date : String) : Except String String :=
  match line with
  | PyVal.dict d =>
    let item := (PyDict.lookup "product_remoteId" d).getD (PyVal.str "")
    let sic := (PyDict.lookup "supplier_item_code" d).getD item
    let qty := (PyDict.lookup "quantity" d).getD (PyVal.num 0)
    Except.ok ("      <ChangePurchaseLine>\n        <ItemCode>"
      ++ escapeS (pyStr item)
      ++ "</ItemCode>\n        <SupplierItemCode>"
      ++ escapeS (pyStr sic)
      ++ "</SupplierItemCode>\n        <QuantityOrdered>"
      ++ escapeS (pyStr qty)
      ++ "</QuantityOrdered>\n        <ExpectedDate>"
      ++ escapeS formatted_date
      ++ "</ExpectedDate>\n      </ChangePurchaseLine>\n")
  | _ => Except.error "AttributeError: line object has no attribute get"

def change_purchase_lines_xml (lines : PyList) (formatted_date : String) : Except String String :=
  match lines with
  | .nil => Except.ok ""
  | .cons line rest =>
    match change_purchase_line_xml line formatted_date with
    | Except.error e => Except.error e
    | Except.ok x =>
      match change_purchase_lines_xml rest formatted_date with
      | Except.error e => Except.error e
      | Except.ok xs => Except.ok (x ++ xs)

/-- `PurchaseOrderSink._build_change_purchase2_envelope`: computes
`formatted_date` from the order-level `created_at` (with the `now + 30
days` fallback) and renders the SOAP 1.2 envelope with one
`ChangePurchaseLine` per line item, all carrying the same
`ExpectedDate`. -/
def build_change_purchase2_envelope (security_code purchase_order_number : String)
    (line_items : PyList) (created_at : Option PyVal) (now : DateTime) :
    Except String String :=
  let formatted_date := format_expected_date created_at now
  match change_purchase_lines_xml line_items formatted_date with
  | Except.error e => Except.error e
  | Except.ok purchase_lines_xml =>
    Except.ok
      ("<?xml version=\"1.0\" encoding=\"utf-8\"?>\n<soap12:Envelope xmlns:xsi=\"http://www.w3.org/2001/XMLSchema-instance\" xmlns:xsd=\"http://www.w3.org/2001/XMLSchema\" xmlns:soap12=\"http://www.w3.org/2003/05/soap-envelope\">\n  <soap12:Body>\n    <ChangePurchase2 xmlns=\"http://sherpa.sherpaan.nl/\">\n      <securityCode>"
        ++ escapeS security_code
        ++ "</securityCode>\n      <purchaseOrderNumber>"
        ++ escapeS purchase_order_number
        ++ "</purchaseOrderNumber>\n      <purchaseLines>\n"
        ++ purchase_lines_xml
        ++ "      </purchaseLines>\n    </ChangePurchase2>\n  </soap12:Body>\n</soap12:Envelope>")

/-- The element text contents interpolated into one
`ChangePurchaseLine` block, in document order (empty for a non-dict
line, where the builder raises instead of producing text). -/
def changeLineTextContents (line : PyVal) (formatted_date : String) : List String :=
  match line with
  | PyVal.dict d =>
    let item := (PyDict.lookup "product_remoteId" d).getD (PyVal.str "")
    let sic := (PyDict.lookup "supplier_item_code" d).getD item
    let qty := (PyDict.lookup "quantity" d).getD (PyVal.num 0)
    [escapeS (pyStr item), escapeS (pyStr sic), escapeS (pyStr qty), escapeS formatted_date]
  | _ => []

/-- All element text contents interpolated into the `ChangePurchase2`
envelope, in document order. -/
def changeEnvelopeTextContents (security_code purchase_order_number : String)
    (line_items : PyList) (created_at : Option PyVal) (now : DateTime) : List String :=
  escapeS security_code :: escapeS purchase_order_number ::
    (PyList.toList line_items).flatMap
      (fun line => changeLineTextContents line (format_expected_date created_at now))

/-! ## Purchase-order-number extraction
(`PurchaseOrderSink._extract_purchase_order_number`) -/

/-- The second loop of `_extract_purchase_order_number`: the fixed
candidate key list, each accepted only when truthy and `str(value)` is
all digits. -/
def extractFixedKeys (es : PyDict) : Option String :=
  goKeys ["PurchaseOrderNumber", "purchaseOrderNumber", "PurchaseNumber", "purchaseNumber",
          "OrderNumber", "orderNumber", "ResponseValue"] es
where
  goKeys : List String → PyDict → Option String
    | [], _ => Option.none
    | k :: rest, es =>
      match PyDict.lookup k es with
      | some v => if truthy v && isDigitStr (pyStr v) then some (pyStr v) else goKeys rest es
      | Option.none => goKeys rest es

/-- The last-resort loop of `_extract_purchase_order_number`: the first
string value that is entirely numeric, skipping the key literally named
`ResponseTime`. -/
def extractLastResort : PyDict → Option String
  | .nil => Option.none
  | .cons k v rest =>
    match v with
    | PyVal.str s => if !(k == "ResponseTime") && isDigitStr s then some s else extractLastResort rest
    | _ => extractLastResort rest

/-- The first loop of `_extract_purchase_order_number` over the dict
items: a nested dict with a truthy `ResponseValue` returns `str` of that
value immediately; otherwise the extractor recurses into the nested dict
(the inner `match` is the body of `_extract_purchase_order_number` on
the nested dict, inlined — see `extract_dict_unfold`), and a truthy
(non-empty) recursive result is returned. -/
def extractFirstLoop : PyDict → Option String
  | .nil => Option.none
  | .cons _k v rest =>
    match v with
    | PyVal.dict d =>
      match PyDict.lookup "ResponseValue" d with
      | some rv =>
        if truthy rv then some (pyStr rv)
        else
          match (match extractFirstLoop d with
                 | some r => some r
                 | Option.none =>
                   match extractFixedKeys d with
                   | some r => some r
                   | Option.none => extractLastResort d) with
          | some r => if r == "" then extractFirstLoop rest else some r
          | Option.none => extractFirstLoop rest
      | Option.none =>
        match (match extractFirstLoop d with
               | some r => some r
               | Option.none =>
                 match extractFixedKeys d with
                 | some r => some r
                 | Option.none => extractLastResort d) with
        | some r => if r == "" then extractFirstLoop rest else some r
        | Option.none => extractFirstLoop rest
    | _ => extractFirstLoop rest

/-- `PurchaseOrderSink._extract_purchase_order_number`: non-dict input
yields `None`; a dict is searched by the three strategies in order. -/
def extract_purchase_order_number : PyVal → Option String
  | PyVal.dict es =>
    match extractFirstLoop es with
    | some r => some r
    | Option.none =>
      match extractFixedKeys es with
      | some r => some r
      | Option.none => extractLastResort es
  | _ => Option.none

/-- The recursive call inside the first loop is exactly the extractor on
the nested dict. -/
theorem extract_dict_unfold (d : PyDict) :
    extract_purchase_order_number (PyVal.dict d) =
    (match extractFirstLoop d with
     | some r => some r
     | Option.none =>
       match extractFixedKeys d with
       | some r => some r
       | Option.none => extractLastResort d) := rfl

/-! ## Transport retry (`client.py`, tenacity decorator)

`call_soap_service` is decorated with `@retry(stop=stop_after_attempt(3),
wait=wait_exponential(multiplier=1, min=4, max=10))`. An attempt is an
oracle call `f n`; after a failed attempt `n` tenacity stops once
`n ≥ 3`, otherwise sleeps `wait_exponential` of the attempt number and
retries. The model returns the outcome, the list of sleeps, and the list
of attempt numbers made. -/

/-- `tenacity.wait_exponential(multiplier, min, max)` after attempt
`attempt`: `multiplier * 2 ^ attempt` clamped into `[min, max]`. -/
def wait_exponential (multiplier minW maxW attempt : Nat) : Nat :=
  max (max 0 minW) (min (multiplier * 2 ^ attempt) maxW)

/-- The tenacity attempt loop: `fuel` is an upper bound on the remaining
attempts (`call_soap_service` supplies enough for the fixed stop
condition); `n` is the 1-based attempt number. -/
def retryGo {ε α : Type} (f : Nat → Except ε α) (stopN : Nat) :
    Nat → Nat → Except ε α × List Nat × List Nat
  | 0, n => (f n, [], [n])
  | fuel + 1, n =>
    match f n with
    | Except.ok a => (Except.ok a, [], [n])
    | Except.error e =>
      if stopN ≤ n then (Except.error e, [], [n])
      else
        let w := wait_exponential 1 4 10 n
        let r := retryGo f stopN fuel (n + 1)
        (r.1, w :: r.2.1, n :: r.2.2)

/-- `SherpaClient.call_soap_service` under its retry decorator, as a
function of the per-attempt outcome oracle. -/
def call_soap_service {ε α : Type} (f : Nat → Except ε α) : Except ε α × List Nat × List Nat :=
  retryGo f 3 3 1

/-! ## SOAP response parsing (`SherpaClient._parse_soap_response`)

The XML has already been turned into a `PyVal` tree by
`xmltodict.parse`; the model covers the body-locating and
result-extracting logic after that call. Python-level exceptions
(`AttributeError`/`TypeError`/`KeyError` from duck-typed access) are the
`Except Unit` layer; the source's `except` handler turns any of them
into the `raw_response` dict. -/

/-- Substring test on character lists (Python `needle in haystack` for
strings). -/
def listContains (needle : List Char) : List Char → Bool
  | [] => needle.isEmpty
  | c :: t => List.isPrefixOf needle (c :: t) || listContains needle t

/-- Python `key in value` for the duck-typed containment tests: key
membership for dicts, substring test for strings, element equality for
lists; numbers and `None` raise `TypeError`. -/
def pyIn (key : String) (v : PyVal) : Except Unit Bool :=
  match v with
  | PyVal.dict es => Except.ok ((PyDict.lookup key es).isSome)
  | PyVal.str s => Except.ok (listContains key.data s.data)
  | PyVal.list xs =>
    Except.ok (go xs)
  | _ => Except.error ()
where
  go : PyList → Bool
    | .nil => false
    | .cons el rest =>
      (match el with
       | PyVal.str s => s == key
       | _ => false) || go rest

/-- Python `value[key]`: dict indexing (`KeyError` if absent); every other
type raises for a string index. -/
def pyIndex (v : PyVal) (key : String) : Except Unit PyVal :=
  match v with
  | PyVal.dict es =>
    match PyDict.lookup key es with
    | some x => Except.ok x
    | Option.none => Except.error ()
  | _ => Except.error ()

/-- The inner body-alias loop: first of `soap:Body`/`soap12:Body`/`Body`
contained in the envelope wins; no match leaves the accumulator
untouched. -/
def findBodyInEnv (envelope : PyVal) : List String → Except Unit (Option PyVal)
  | [] => Except.ok Option.none
  | bk :: rest => do
    let present ← pyIn bk envelope
    if present then
      let b ← pyIndex envelope bk
      pure (some b)
    else findBodyInEnv envelope rest

/-- The outer envelope-alias loop of `_parse_soap_response`: `soap_body`
persists across iterations and the loop breaks only on a truthy body. -/
def findSoapBody (xml_dict : PyVal) : List String → Option PyVal → Except Unit (Option PyVal)
  | [], acc => Except.ok acc
  | ek :: rest, acc => do
    let present ← pyIn ek xml_dict
    if present then
      let env ← pyIndex xml_dict ek
      let nb ← findBodyInEnv env ["soap:Body", "soap12:Body", "Body"]
      let acc2 := match nb with | some b => some b | Option.none => acc
      match acc2 with
      | some b => if truthy b then pure (some b) else findSoapBody xml_dict rest acc2
      | Option.none => findSoapBody xml_dict rest acc2
    else findSoapBody xml_dict rest acc

/-- The response-data loop of `_parse_soap_response`: scan the body's
items for a nested dict containing `Result` or `ResponseValue`, else a
dict value under a key containing `Response`. (`key.endswith("Response")
or "Response" in key` is equivalent to the substring test.) -/
def findResponseData : PyDict → Option PyVal
  | .nil => Option.none
  | .cons k v rest =>
    match v with
    | PyVal.dict d =>
      match PyDict.lookup "Result" d with
      | some r => some r
      | Option.none =>
        match PyDict.lookup "ResponseValue" d with
        | some r => some r
        | Option.none =>
          if listContains "Response".data k.data then some (PyVal.dict d)
          else findResponseData rest
    | _ => findResponseData rest

/-- `SherpaClient._parse_soap_response` after `xmltodict.parse` has
produced `xml_dict`: locate the body, extract the response data, and let
the `except` handler turn any duck-typing exception into the
`raw_response` dict. -/
def parse_soap_response_from_dict (xml_dict : PyVal) (xml_response : String) : PyVal :=
  let run : Except Unit PyVal := do
    let body? ← findSoapBody xml_dict ["soap:Envelope", "soap12:Envelope", "Envelope"] Option.none
    match body? with
    | Option.none => pure (PyVal.dict (PyDict.cons "raw_response" (PyVal.str xml_response) PyDict.nil))
    | some soap_body =>
      if truthy soap_body then
        match soap_body with
        | PyVal.dict es =>
          match findResponseData es with
          | some rd =>
            if truthy rd then pure rd else pure (PyVal.dict es)
          | Option.none => pure (PyVal.dict es)
        | _ => Except.error ()
      else pure (PyVal.dict (PyDict.cons "raw_response" (PyVal.str xml_response) PyDict.nil))
  match run with
  | Except.ok r => r
  | Except.error _ => PyVal.dict (PyDict.cons "raw_response" (PyVal.str xml_response) PyDict.nil)

/-! ## JSON parsing (`json.loads` fragment)

`process_record` applies `json.loads` when `line_items` arrives as a
string. The model parses the JSON fragment used by the sink: objects,
arrays, strings with the simple escapes, integers, booleans and null,
with JSON whitespace. Floats, exponents and `\u` escapes are outside the
modelled fragment and fail the parse (the theorems only ever rely on
inputs inside the fragment). -/

def isJsonWs (c : Char) : Bool :=
  c = ' ' ∨ c = '\t' ∨ c = '\n' ∨ c = '\r'

def skipWs : List Char → List Char
  | [] => []
  | c :: rest => if isJsonWs c then skipWs rest else c :: rest

/-- JSON string body after the opening quote: plain characters and the
escapes `\" \\ \/ \b \f \n \r \t`. -/
def jsonString : Nat → List Char → Option (String × List Char)
  | 0, _ => Option.none
  | _, [] => Option.none
  | fuel + 1, c :: rest =>
    if c = Char.ofNat 34 then some ("", rest)
    else if c = Char.ofNat 92 then
      match rest with
      | [] => Option.none
      | e :: rest2 =>
        let dec : Option Char :=
          if e = Char.ofNat 34 then some (Char.ofNat 34)
          else if e = Char.ofNat 92 then some (Char.ofNat 92)
          else if e = '/' then some '/'
          else if e = 'b' then some (Char.ofNat 8)
          else if e = 'f' then some (Char.ofNat 12)
          else if e = 'n' then some '\n'
          else if e = 'r' then some (Char.ofNat 13)
          else if e = 't' then some '\t'
          else Option.none
        match dec with
        | some d =>
          match jsonString fuel rest2 with
          | some (s, r) => some (String.mk (d :: s.data), r)
          | Option.none => Option.none
        | Option.none => Option.none
    else
      match jsonString fuel rest with
      | some (s, r) => some (String.mk (c :: s.data), r)
      | Option.none => Option.none

/-- JSON integer: optional minus and a digit run; a following `.`, `e` or
`E` means a float, which is outside the modelled fragment. -/
def jsonNumber (cs : List Char) : Option (Int × List Char) :=
  let (neg, cs2) :=
    match cs with
    | '-' :: r => (true, r)
    | _ => (false, cs)
  match takeDigits cs2 with
  | ([], _) => Option.none
  | (ds, rest) =>
    match rest with
    | '.' :: _ => Option.none
    | 'e' :: _ => Option.none
    | 'E' :: _ => Option.none
    | _ =>
      let n : Nat := ds.foldl (fun acc c => acc * 10 + digitVal c) 0
      some (if neg then -(n : Int) else (n : Int), rest)

mutual
def jsonValue : Nat → List Char → Option (PyVal × List Char)
  | 0, _ => Option.none
  | fuel + 1, cs =>
    match skipWs cs with
    | [] => Option.none
    | c :: rest =>
      if c = Char.ofNat 123 then
        match jsonObject fuel (skipWs rest) true with
        | some (es, r) => some (PyVal.dict es, r)
        | Option.none => Option.none
      else if c = '[' then
        match jsonArray fuel (skipWs rest) true with
        | some (xs, r) => some (PyVal.list xs, r)
        | Option.none => Option.none
      else if c = Char.ofNat 34 then
        match jsonString (fuel + 1) rest with
        | some (s, r) => some (PyVal.str s, r)
        | Option.none => Option.none
      else if c = 't' then
        match rest with
        | 'r' :: 'u' :: 'e' :: r => some (PyVal.bool true, r)
        | _ => Option.none
      else if c = 'f' then
        match rest with
        | 'a' :: 'l' :: 's' :: 'e' :: r => some (PyVal.bool false, r)
        | _ => Option.none
      else if c = 'n' then
        match rest with
        | 'u' :: 'l' :: 'l' :: r => some (PyVal.none, r)
        | _ => Option.none
      else
        match jsonNumber (c :: rest) with
        | some (n, r) => some (PyVal.num n, r)
        | Option.none => Option.none

def jsonArray : Nat → List Char → Bool → Option (PyList × List Char)
  | 0, _, _ => Option.none
  | _fuel + 1, [], _ => Option.none
  | fuel + 1, c :: rest, first =>
    if first ∧ c = ']' then some (PyList.nil, rest)
    else
      match jsonValue fuel (c :: rest) with
      | Option.none => Option.none
      | some (v, r) =>
        match skipWs r with
        | ']' :: r2 => some (PyList.cons v PyList.nil, r2)
        | ',' :: r2 =>
          match jsonArray fuel (skipWs r2) false with
          | some (vs, r3) => some (PyList.cons v vs, r3)
          | Option.none => Option.none
        | _ => Option.none

def jsonObject : Nat → List Char → Bool → Option (PyDict × List Char)
  | 0, _, _ => Option.none
  | _fuel + 1, [], _ => Option.none
  | fuel + 1, c :: rest, first =>
    if first ∧ c = Char.ofNat 125 then some (PyDict.nil, rest)
    else if c = Char.ofNat 34 then
      match jsonString (fuel + 1) rest with
      | Option.none => Option.none
      | some (k, r) =>
        match skipWs r with
        | ':' :: r2 =>
          match jsonValue fuel r2 with
          | Option.none => Option.none
          | some (v, r3) =>
            match skipWs r3 with
            | c2 :: r4 =>
              if c2 = Char.ofNat 125 then some (PyDict.cons k v PyDict.nil, r4)
              else if c2 = ',' then
                match jsonObject fuel (skipWs r4) false with
                | some (es, r5) => some (PyDict.cons k v es, r5)
                | Option.none => Option.none
              else Option.none
            | [] => Option.none
        | _ => Option.none
    else Option.none
end

/-- Python `json.loads` on the modelled fragment: parse one value and
require only whitespace to remain. -/
def json_loads (s : String) : Option PyVal :=
  match jsonValue (s.data.length + 1) s.data with
  | some (v, rest) => if skipWs rest = [] then some v else Option.none
  | Option.none => Option.none

/-! ## The record workflow (`PurchaseOrderSink.process_record`) -/

/-- The sink configuration slice used by `process_record`:
`config["security_code"]` (a required key) and
`config.get("export_buyOrder_warehouse")`. -/
structure SherpaConfig where
  security_code : String
  export_buyOrder_warehouse : Option PyVal

/-- `record.get("warehouse_code") or config.get("export_buyOrder_warehouse")`
followed by the `if not warehouse_code_for_soap: raise` check: `some v`
iff a truthy warehouse value was resolved (Python `or` takes the config
value whenever the record value is absent or falsy; a falsy resolution
raises `ValueError`). -/
def resolve_warehouse (record : PyDict) (cfg : SherpaConfig) : Option PyVal :=
  let orVal : Option PyVal :=
    match PyDict.lookup "warehouse_code" record with
    | some v => if truthy v then some v else cfg.export_buyOrder_warehouse
    | Option.none => cfg.export_buyOrder_warehouse
  match orVal with
  | some v => if truthy v then some v else Option.none
  | Option.none => Option.none

/-- Lines 229-237 of `sinks.py`: a string `line_items` is `json.loads`-ed
(`ValueError` on malformed JSON), a list is used as-is, and anything
else is coerced to the empty list. -/
def resolve_line_items (raw : PyVal) : Except String PyVal :=
  match raw with
  | PyVal.str s =>
    match json_loads s with
    | some v => Except.ok v
    | Option.none => Except.error "ValueError: Invalid JSON in line_items"
  | PyVal.list xs => Except.ok (PyVal.list xs)
  | _ => Except.ok (PyVal.list PyList.nil)

/-- `PurchaseOrderSink.process_record`. The SOAP client is the oracle
`respond service_name envelope`; `now` stands for `datetime.now()`.
Returns the outcome (`Except.error` = the exception re-raised by the
outer handler, which logs and re-raises unchanged) paired with the list
of SOAP calls issued, in order. -/
def process_record (cfg : SherpaConfig) (record : PyDict)
    (respond : String → String → Except String PyVal) (now : DateTime) :
    Except String Unit × List (String × String) :=
  match PyDict.lookup "supplier_remoteId" record with
  | Option.none => (Except.error "KeyError: supplier_remoteId", [])
  | some supplier =>
    match PyDict.lookup "id" record with
    | Option.none => (Except.error "KeyError: id", [])
    | some idv =>
      let reference := pyStr idv
      match resolve_warehouse record cfg with
      | Option.none =>
        (Except.error "ValueError: warehouse_code is required but not found in record or config (export_buyOrder_warehouse)", [])
      | some wh =>
        match resolve_line_items ((PyDict.lookup "line_items" record).getD (PyVal.list PyList.nil)) with
        | Except.error e => (Except.error e, [])
        | Except.ok line_items =>
          let created_at := PyDict.lookup "created_at" record
          if truthy line_items then
            let add_env := build_add_ordered_purchase_envelope cfg.security_code
              (pyStr supplier) reference (pyStr wh)
            match respond "AddOrderedPurchase" add_env with
            | Except.error e => (Except.error e, [("AddOrderedPurchase", add_env)])
            | Except.ok add_response =>
              match extract_purchase_order_number add_response with
              | Option.none =>
                (Except.error "ValueError: Could not extract purchase order number from AddOrderedPurchase response",
                 [("AddOrderedPurchase", add_env)])
              | some pon =>
                if pon == "" then
                  (Except.error "ValueError: Could not extract purchase order number from AddOrderedPurchase response",
                   [("AddOrderedPurchase", add_env)])
                else
                  match line_items with
                  | PyVal.list items =>
                    match build_change_purchase2_envelope cfg.security_code pon items created_at now with
                    | Except.error e => (Except.error e, [("AddOrderedPurchase", add_env)])
                    | Except.ok change_env =>
                      match respond "ChangePurchase2" change_env with
                      | Except.error e =>
                        (Except.error e,
                         [("AddOrderedPurchase", add_env), ("ChangePurchase2", change_env)])
                      | Except.ok _ =>
                        (Except.ok (),
                         [("AddOrderedPurchase", add_env), ("ChangePurchase2", change_env)])
                  | _ =>
                    (Except.error "TypeError: line_items elements are not mappings",
                     [("AddOrderedPurchase", add_env)])
          else (Except.ok (), [])

/-! ## Theorems -/

/-! ### Escaping (claim C1) -/

theorem noU_cons_plain (c : Char) (t : List Char) (h1 : ¬ c = '&') (h2 : ¬ c = '<')
    (h3 : ¬ c = '>') : noUnescapedAmpLtGt (c :: t) = noUnescapedAmpLtGt t := by
  simp [noUnescapedAmpLtGt, h1, h2, h3]

theorem noU_amp (t : List Char) :
    noUnescapedAmpLtGt ('&' :: 'a' :: 'm' :: 'p' :: ';' :: t) = noUnescapedAmpLtGt t := by
  simp [noUnescapedAmpLtGt, entityStart, List.isPrefixOf]

theorem noU_lt (t : List Char) :
    noUnescapedAmpLtGt ('&' :: 'l' :: 't' :: ';' :: t) = noUnescapedAmpLtGt t := by
  simp [noUnescapedAmpLtGt, entityStart, List.isPrefixOf]

theorem noU_gt (t : List Char) :
    noUnescapedAmpLtGt ('&' :: 'g' :: 't' :: ';' :: t) = noUnescapedAmpLtGt t := by
  simp [noUnescapedAmpLtGt, entityStart, List.isPrefixOf]

/-- `saxutils.escape` output never contains an unescaped `&`, `<` or `>`. -/
theorem escape_wellformed (l : List Char) : noUnescapedAmpLtGt (escapeList l) = true := by
  induction l with
  | nil => rfl
  | cons c t ih =>
    have hstep : escapeList (c :: t) = escapeChar c ++ escapeList t := by
      simp [escapeList]
    rw [hstep]
    by_cases h1 : c = '&'
    · subst h1
      show noUnescapedAmpLtGt ('&' :: 'a' :: 'm' :: 'p' :: ';' :: escapeList t) = true
      rw [noU_amp, ih]
    · by_cases h2 : c = '<'
      · subst h2
        show noUnescapedAmpLtGt ('&' :: 'l' :: 't' :: ';' :: escapeList t) = true
        rw [noU_lt, ih]
      · by_cases h3 : c = '>'
        · subst h3
          show noUnescapedAmpLtGt ('&' :: 'g' :: 't' :: ';' :: escapeList t) = true
          rw [noU_gt, ih]
        · have hplain : escapeChar c = [c] := by simp [escapeChar, h1, h2, h3]
          rw [hplain]
          show noUnescapedAmpLtGt (c :: escapeList t) = true
          rw [noU_cons_plain c _ h1 h2 h3, ih]

def apostrophe : Char := Char.ofNat 39

set_option maxRecDepth 4000 in
/-- Claim C1, counterexample: for an input consisting of a single
apostrophe, the `AddOrderedPurchase` envelope carries the apostrophe raw
as the entire text content of the `reference` element
(`>'<` occurs in the envelope), so the five-character claim — no
unescaped `&`, `<`, `>`, `"`, `'` in element text content — is false:
`escape` leaves both quote characters untouched. -/
theorem C1_counterexample :
    noUnescapedFive (escapeS (String.mk [apostrophe])).data = false ∧
    listContains ('>' :: apostrophe :: '<' :: [])
      (build_add_ordered_purchase_envelope "s" "p" (String.mk [apostrophe]) "w").data = true := by
  decide

/-- Claim C1 (amended): for every interpolated value, the element text
contents of both envelopes contain no unescaped `&`, `<` or `>` — every
ampersand in a text content begins a predefined entity reference and no
raw angle bracket occurs. (Quotes pass through unescaped, which is still
well-formed in element text content; the five-character version fails,
see `C1_counterexample`.) -/
theorem C1_escaped_text_contents
    (sc sup ref wh pon : String) (lines : PyList) (ca : Option PyVal) (now : DateTime) :
    (∀ c ∈ addEnvelopeTextContents sc sup ref wh, noUnescapedAmpLtGt c.data = true) ∧
    (∀ c ∈ changeEnvelopeTextContents sc pon lines ca now, noUnescapedAmpLtGt c.data = true) := by
  constructor
  · intro c hc
    simp only [addEnvelopeTextContents, List.mem_cons, List.mem_singleton,
      List.not_mem_nil, or_false] at hc
    rcases hc with h | h | h | h <;> subst h <;> exact escape_wellformed _
  · intro c hc
    simp only [changeEnvelopeTextContents, List.mem_cons, List.mem_flatMap] at hc
    rcases hc with h | h | ⟨line, _hline, hcl⟩
    · subst h; exact escape_wellformed _
    · subst h; exact escape_wellformed _
    · cases line with
      | dict d =>
        simp only [changeLineTextContents, List.mem_cons, List.not_mem_nil, or_false] at hcl
        rcases hcl with h | h | h | h <;> subst h <;> exact escape_wellformed _
      | str s => simp [changeLineTextContents] at hcl
      | num n => simp [changeLineTextContents] at hcl
      | bool b => simp [changeLineTextContents] at hcl
      | none => simp [changeLineTextContents] at hcl
      | list xs => simp [changeLineTextContents] at hcl

/-- Claim C1, witness: the amended theorem applied to a concrete value
containing all five special characters. -/
theorem C1_witness :
    noUnescapedAmpLtGt (escapeS (String.mk ['a', '&', 'b', '<', 'c', '>', apostrophe])).data = true :=
  (C1_escaped_text_contents (String.mk ['a', '&', 'b', '<', 'c', '>', apostrophe]) "x" "y" "z"
      "p" PyList.nil Option.none ⟨2025, 1, 1, 0, 0, 0⟩).1
    (escapeS (String.mk ['a', '&', 'b', '<', 'c', '>', apostrophe]))
    (by simp [addEnvelopeTextContents])

/-! ### Transport retry (claim C5) -/

/-- Claim C5: the transport makes at most 3 attempts with every sleep
between 4 and 10 time units regardless of the error values; three
consecutive failures exhaust the budget (attempts 1,2,3, sleeps 4 and 4,
error raised); a success on the 2nd attempt returns it after attempts
1,2 with a single sleep and no 3rd attempt. -/
theorem C5_retry_policy (f : Nat → Except String PyVal) :
    ((call_soap_service f).2.2.length ≤ 3 ∧
      ∀ w ∈ (call_soap_service f).2.1, 4 ≤ w ∧ w ≤ 10) ∧
    (∀ e1 e2 e3, f 1 = Except.error e1 → f 2 = Except.error e2 → f 3 = Except.error e3 →
      call_soap_service f = (Except.error e3, [4, 4], [1, 2, 3])) ∧
    (∀ e a, f 1 = Except.error e → f 2 = Except.ok a →
      call_soap_service f = (Except.ok a, [4], [1, 2])) := by
  refine ⟨?_, ?_, ?_⟩
  · rcases h1 : f 1 with e1 | a1 <;>
      rcases h2 : f 2 with e2 | a2 <;>
        rcases h3 : f 3 with e3 | a3 <;>
          simp [call_soap_service, retryGo, h1, h2, h3, wait_exponential]
  · intro e1 e2 e3 h1 h2 h3
    simp [call_soap_service, retryGo, h1, h2, h3, wait_exponential]
  · intro e a h1 h2
    simp [call_soap_service, retryGo, h1, h2, wait_exponential]

/-- Claim C5, witness: the retry theorem applied to a concrete oracle
that fails on the 1st attempt and succeeds on the 2nd. -/
theorem C5_witness :
    call_soap_service
        (fun n => if n = 2 then Except.ok (PyVal.str "resp") else Except.error "connection refused") =
      (Except.ok (PyVal.str "resp"), [4], [1, 2]) :=
  (C5_retry_policy
      (fun n => if n = 2 then Except.ok (PyVal.str "resp") else Except.error "connection refused")).2.2
    "connection refused" (PyVal.str "resp") rfl rfl

/-! ### SOAP response parsing (claim C8) -/

/-- Structural statement that an envelope alias contributes no body: the
alias is absent, or maps to a dict containing none of the three body
aliases. -/
def envClear (d : PyDict) (ek : String) : Bool :=
  match PyDict.lookup ek d with
  | Option.none => true
  | some (PyVal.dict denv) =>
    (PyDict.lookup "soap:Body" denv).isNone && (PyDict.lookup "soap12:Body" denv).isNone &&
      (PyDict.lookup "Body" denv).isNone
  | some _ => false

/-- No Body element is found under any of the three envelope aliases
combined with the three body aliases. -/
def noBodyFound (d : PyDict) : Bool :=
  envClear d "soap:Envelope" && envClear d "soap12:Envelope" && envClear d "Envelope"

theorem findSoapBody_step (d : PyDict) (ek : String) (rest : List String)
    (h : envClear d ek = true) :
    findSoapBody (PyVal.dict d) (ek :: rest) Option.none =
      findSoapBody (PyVal.dict d) rest Option.none := by
  unfold envClear at h
  rcases hlk : PyDict.lookup ek d with _ | v
  · simp [findSoapBody, pyIn, hlk, Bind.bind, Except.bind]
  · rw [hlk] at h
    rcases v with s | n | b | _ | xs | denv <;> simp at h
    simp [findSoapBody, pyIn, pyIndex, hlk, findBodyInEnv, h.1.1, h.1.2, h.2,
      Bind.bind, Except.bind]

/-- Claim C8: when no Body element is found under any of the namespace
aliases, `_parse_soap_response` does not raise and returns the
structured `raw_response` result carrying the raw payload. -/
theorem C8_no_body_raw_response (d : PyDict) (raw : String) (h : noBodyFound d = true) :
    parse_soap_response_from_dict (PyVal.dict d) raw =
      PyVal.dict (PyDict.cons "raw_response" (PyVal.str raw) PyDict.nil) := by
  unfold noBodyFound at h
  simp only [Bool.and_eq_true] at h
  unfold parse_soap_response_from_dict
  rw [findSoapBody_step d _ _ h.1.1, findSoapBody_step d _ _ h.1.2,
    findSoapBody_step d _ _ h.2]
  rfl

/-- Claim C8, witness: a response whose only envelope alias holds no body
alias yields the `raw_response` dict. -/
theorem C8_witness :
    parse_soap_response_from_dict
        (PyVal.dict (PyDict.cons "Envelope"
          (PyVal.dict (PyDict.cons "foo" (PyVal.str "x") PyDict.nil)) PyDict.nil))
        "<garbage/>" =
      PyVal.dict (PyDict.cons "raw_response" (PyVal.str "<garbage/>") PyDict.nil) :=
  C8_no_body_raw_response
    (PyDict.cons "Envelope" (PyVal.dict (PyDict.cons "foo" (PyVal.str "x") PyDict.nil)) PyDict.nil)
    "<garbage/>" (by decide)

/-! ### Purchase-order-number extraction (claims C3 and C10) -/

/-- All values of a dict satisfy a predicate. -/
def PyDict.allValues (p : PyVal → Bool) : PyDict → Bool
  | .nil => true
  | .cons _ v rest => p v && PyDict.allValues p rest

def notDict : PyVal → Bool
  | PyVal.dict _ => false
  | _ => true

/-- When every entry before a nested dict carrying a truthy
`ResponseValue` is a non-dict value, the first loop returns `str` of
that `ResponseValue`. -/
theorem firstLoop_found (pre : PyDict) (k : String) (d : PyDict) (post : PyDict) (v : PyVal)
    (hpre : PyDict.allValues notDict pre = true)
    (hd : PyDict.lookup "ResponseValue" d = some v) (hv : truthy v = true) :
    extractFirstLoop (PyDict.app pre (PyDict.cons k (PyVal.dict d) post)) = some (pyStr v) := by
  cases pre with
  | nil =>
    show extractFirstLoop (PyDict.cons k (PyVal.dict d) post) = some (pyStr v)
    simp [extractFirstLoop, hd, hv]
  | cons k0 v0 pre =>
    simp only [PyDict.allValues, Bool.and_eq_true] at hpre
    have ih := firstLoop_found pre k d post v hpre.2 hd hv
    have step : PyDict.app (PyDict.cons k0 v0 pre) (PyDict.cons k (PyVal.dict d) post) =
        PyDict.cons k0 v0 (PyDict.app pre (PyDict.cons k (PyVal.dict d) post)) := rfl
    rw [step]
    rcases v0 with s | n | b | _ | xs | es
    · simpa [extractFirstLoop] using ih
    · simpa [extractFirstLoop] using ih
    · simpa [extractFirstLoop] using ih
    · simpa [extractFirstLoop] using ih
    · simpa [extractFirstLoop] using ih
    · simp [notDict] at hpre

/-- Same statement lifted to `_extract_purchase_order_number`. -/
theorem extract_found (pre : PyDict) (k : String) (d : PyDict) (post : PyDict) (v : PyVal)
    (hpre : PyDict.allValues notDict pre = true)
    (hd : PyDict.lookup "ResponseValue" d = some v) (hv : truthy v = true) :
    extract_purchase_order_number (PyVal.dict (PyDict.app pre (PyDict.cons k (PyVal.dict d) post))) =
      some (pyStr v) := by
  have h := firstLoop_found pre k d post v hpre hd hv
  simp [extract_purchase_order_number, h]

/-- Claim C3, counterexample: the mapping
`{"A": {"Foo": "61"}, "R": {"ResponseValue": "600010", "ResponseTime": "61"}}`
contains `ResponseValue: "600010"` and `ResponseTime: "61"` inside the
nested result mapping `R`, yet the extractor returns `"61"`: the first
loop recurses into the sibling mapping `A` first, and the last-resort
scan inside that recursion accepts the numeric string under `Foo`. -/
theorem C3_counterexample :
    extract_purchase_order_number
        (PyVal.dict (PyDict.cons "A" (PyVal.dict (PyDict.cons "Foo" (PyVal.str "61") PyDict.nil))
          (PyDict.cons "R" (PyVal.dict (PyDict.cons "ResponseValue" (PyVal.str "600010")
            (PyDict.cons "ResponseTime" (PyVal.str "61") PyDict.nil))) PyDict.nil))) =
      some "61" := by
  decide

/-- Claim C3 (amended): in a response mapping whose entries before the
result mapping are all non-dict values and whose result mapping binds
`ResponseValue` to `"600010"` (with `ResponseTime: "61"` or anything
else as siblings), the extractor returns `"600010"` — never `"61"`; and
the last-resort numeric-string scan skips the field literally named
`ResponseTime`, so a mapping whose only entry is a numeric string under
`ResponseTime` yields no order number at all. The restriction on the
preceding entries is forced by `C3_counterexample`: an earlier sibling
mapping with any numeric string value is returned by the recursive
last-resort scan. -/
theorem C3_response_value_wins (pre : PyDict) (k : String) (d : PyDict) (post : PyDict)
    (hpre : PyDict.allValues notDict pre = true)
    (hd : PyDict.lookup "ResponseValue" d = some (PyVal.str "600010")) :
    extract_purchase_order_number
        (PyVal.dict (PyDict.app pre (PyDict.cons k (PyVal.dict d) post))) = some "600010" ∧
    (∀ s : String, isDigitStr s = true →
      extract_purchase_order_number
        (PyVal.dict (PyDict.cons "ResponseTime" (PyVal.str s) PyDict.nil)) = Option.none) := by
  constructor
  · simpa using extract_found pre k d post (PyVal.str "600010") hpre hd (by decide)
  · intro s _hs
    simp [extract_purchase_order_number, extractFirstLoop, extractFixedKeys,
      extractFixedKeys.goKeys, extractLastResort, PyDict.lookup]

/-- Claim C3, witness: the amended theorem applied to the documented
response shape
`{"AddOrderedPurchaseResult": {"ResponseValue": "600010", "ResponseTime": "61"}}`
and to the sibling-metadata mapping `{"ResponseTime": "61"}`. -/
theorem C3_witness :
    extract_purchase_order_number
        (PyVal.dict (PyDict.cons "AddOrderedPurchaseResult"
          (PyVal.dict (PyDict.cons "ResponseValue" (PyVal.str "600010")
            (PyDict.cons "ResponseTime" (PyVal.str "61") PyDict.nil))) PyDict.nil)) =
      some "600010" ∧
    extract_purchase_order_number
        (PyVal.dict (PyDict.cons "ResponseTime" (PyVal.str "61") PyDict.nil)) = Option.none := by
  have h := C3_response_value_wins PyDict.nil "AddOrderedPurchaseResult"
    (PyDict.cons "ResponseValue" (PyVal.str "600010")
      (PyDict.cons "ResponseTime" (PyVal.str "61") PyDict.nil)) PyDict.nil
    (by decide) rfl
  exact ⟨h.1, h.2 "61" (by decide)⟩

/-- Claim C10, counterexample: the mapping
`{"A": {"Z": "77"}, "B": {"ResponseValue": "ABC"}}` contains a nested
mapping binding `ResponseValue` to the truthy value `"ABC"`, yet the
extractor returns `"77"` — the stringification of no `ResponseValue`
binding at all: the recursion into the earlier sibling `A` wins via its
last-resort scan. -/
theorem C10_counterexample :
    extract_purchase_order_number
        (PyVal.dict (PyDict.cons "A" (PyVal.dict (PyDict.cons "Z" (PyVal.str "77") PyDict.nil))
          (PyDict.cons "B" (PyVal.dict (PyDict.cons "ResponseValue" (PyVal.str "ABC") PyDict.nil))
            PyDict.nil))) = some "77" ∧
    ¬ extract_purchase_order_number
        (PyVal.dict (PyDict.cons "A" (PyVal.dict (PyDict.cons "Z" (PyVal.str "77") PyDict.nil))
          (PyDict.cons "B" (PyVal.dict (PyDict.cons "ResponseValue" (PyVal.str "ABC") PyDict.nil))
            PyDict.nil))) = some "ABC" := by
  constructor
  · decide
  · intro h
    have h77 : extract_purchase_order_number
        (PyVal.dict (PyDict.cons "A" (PyVal.dict (PyDict.cons "Z" (PyVal.str "77") PyDict.nil))
          (PyDict.cons "B" (PyVal.dict (PyDict.cons "ResponseValue" (PyVal.str "ABC") PyDict.nil))
            PyDict.nil))) = some "77" := by decide
    rw [h77] at h
    simp at h

/-- Claim C10 (amended): when the first candidate met by the search is a
nested mapping binding `ResponseValue` to a truthy value — that is, every
entry before the wrapper mapping is a non-dict value — the extractor
returns that value stringified with no digit check at all (`"ABC"` is
accepted). The first-candidate restriction is forced by
`C10_counterexample`; a top-level `ResponseValue`, by contrast, goes
through the digit-checked fixed-candidate path. -/
theorem C10_nested_response_value_unchecked (pre : PyDict) (k : String) (d : PyDict)
    (post : PyDict) (v : PyVal) (hpre : PyDict.allValues notDict pre = true)
    (hd : PyDict.lookup "ResponseValue" d = some v) (hv : truthy v = true) :
    extract_purchase_order_number
        (PyVal.dict (PyDict.app pre (PyDict.cons k (PyVal.dict d) post))) = some (pyStr v) :=
  extract_found pre k d post v hpre hd hv

/-- Claim C10, witness: a nested non-numeric `ResponseValue` of `"ABC"`
is returned as the purchase order number. -/
theorem C10_witness :
    extract_purchase_order_number
        (PyVal.dict (PyDict.cons "meta" (PyVal.str "x")
          (PyDict.cons "Result" (PyVal.dict (PyDict.cons "ResponseValue" (PyVal.str "ABC")
            PyDict.nil)) PyDict.nil))) = some "ABC" :=
  C10_nested_response_value_unchecked
    (PyDict.cons "meta" (PyVal.str "x") PyDict.nil) "Result"
    (PyDict.cons "ResponseValue" (PyVal.str "ABC") PyDict.nil) PyDict.nil
    (PyVal.str "ABC") (by decide) rfl (by decide)

/-! ### Record workflow (claims C4, C7, C9) -/

/-- Claim C4: if the `AddOrderedPurchase` call succeeds but no purchase
order number can be extracted from its response (extraction yields
nothing, or the falsy empty string), `process_record` raises the
extraction `ValueError` and the `ChangePurchase2` call is never issued:
the call log holds exactly the one `AddOrderedPurchase` call. -/
theorem C4_extraction_failure_is_fatal (cfg : SherpaConfig) (record : PyDict)
    (respond : String → String → Except String PyVal) (now : DateTime)
    (sup idv wh li r : PyVal)
    (hsup : PyDict.lookup "supplier_remoteId" record = some sup)
    (hid : PyDict.lookup "id" record = some idv)
    (hwh : resolve_warehouse record cfg = some wh)
    (hli : resolve_line_items ((PyDict.lookup "line_items" record).getD (PyVal.list PyList.nil)) =
      Except.ok li)
    (htr : truthy li = true)
    (hresp : respond "AddOrderedPurchase"
        (build_add_ordered_purchase_envelope cfg.security_code (pyStr sup) (pyStr idv) (pyStr wh)) =
      Except.ok r)
    (hex : extract_purchase_order_number r = Option.none ∨
      extract_purchase_order_number r = some "") :
    process_record cfg record respond now =
      (Except.error "ValueError: Could not extract purchase order number from AddOrderedPurchase response",
       [("AddOrderedPurchase",
         build_add_ordered_purchase_envelope cfg.security_code (pyStr sup) (pyStr idv) (pyStr wh))]) := by
  rcases hex with hex | hex <;>
    simp [process_record, hsup, hid, hwh, hli, htr, hresp, hex]

/-- Claim C4, witness: a concrete record whose `AddOrderedPurchase`
response is an empty mapping — the error is raised and only the one call
was issued. -/
theorem C4_witness :
    process_record ⟨"SEC", some (PyVal.str "WH")⟩
        (PyDict.cons "supplier_remoteId" (PyVal.str "SUP1")
          (PyDict.cons "id" (PyVal.str "9")
            (PyDict.cons "line_items"
              (PyVal.list (PyList.cons (PyVal.dict (PyDict.cons "product_remoteId" (PyVal.str "I")
                (PyDict.cons "quantity" (PyVal.num 2) PyDict.nil))) PyList.nil)) PyDict.nil)))
        (fun _ _ => Except.ok (PyVal.dict PyDict.nil)) ⟨2025, 6, 1, 0, 0, 0⟩ =
      (Except.error "ValueError: Could not extract purchase order number from AddOrderedPurchase response",
       [("AddOrderedPurchase",
         build_add_ordered_purchase_envelope "SEC" "SUP1" "9" "WH")]) :=
  C4_extraction_failure_is_fatal ⟨"SEC", some (PyVal.str "WH")⟩ _ _ ⟨2025, 6, 1, 0, 0, 0⟩
    (PyVal.str "SUP1") (PyVal.str "9") (PyVal.str "WH")
    (PyVal.list (PyList.cons (PyVal.dict (PyDict.cons "product_remoteId" (PyVal.str "I")
      (PyDict.cons "quantity" (PyVal.num 2) PyDict.nil))) PyList.nil))
    (PyVal.dict PyDict.nil)
    rfl rfl rfl rfl rfl rfl (Or.inl rfl)

/-- Claim C7, counterexample: a record whose `line_items` is the
JSON-encoded empty list `"[]"` but that resolves no warehouse code
(absent in both record and config) makes `process_record` raise the
warehouse `ValueError` before the line-item check — it does not return
normally, although no SOAP call is issued. -/
theorem C7_counterexample :
    resolve_line_items (PyVal.str "[]") = Except.ok (PyVal.list PyList.nil) ∧
    process_record ⟨"SEC", Option.none⟩
        (PyDict.cons "supplier_remoteId" (PyVal.str "S")
          (PyDict.cons "id" (PyVal.str "1")
            (PyDict.cons "line_items" (PyVal.str "[]") PyDict.nil)))
        (fun _ _ => Except.error "unused") ⟨2025, 6, 1, 0, 0, 0⟩ =
      (Except.error "ValueError: warehouse_code is required but not found in record or config (export_buyOrder_warehouse)",
       []) :=
  ⟨rfl, rfl⟩

/-- Claim C7 (amended): for every record whose required fields are
present (`supplier_remoteId`, `id`) and whose warehouse code resolves
(record value or config default), if `line_items` resolves to an empty
well-formed list — a literal empty list, an absent key, or a JSON string
parsing to the empty list such as `"[]"` — then `process_record` returns
normally and issues no SOAP call. The field hypotheses are forced by
`C7_counterexample`: field validation runs before the line-item skip. -/
theorem C7_empty_line_items_skip (cfg : SherpaConfig) (record : PyDict)
    (respond : String → String → Except String PyVal) (now : DateTime)
    (sup idv wh : PyVal)
    (hsup : PyDict.lookup "supplier_remoteId" record = some sup)
    (hid : PyDict.lookup "id" record = some idv)
    (hwh : resolve_warehouse record cfg = some wh)
    (hli : resolve_line_items ((PyDict.lookup "line_items" record).getD (PyVal.list PyList.nil)) =
      Except.ok (PyVal.list PyList.nil)) :
    process_record cfg record respond now = (Except.ok (), []) := by
  simp [process_record, hsup, hid, hwh, hli, truthy]

/-- Claim C7, witness: a valid record with `line_items: "[]"` completes
without any SOAP call. -/
theorem C7_witness :
    process_record ⟨"SEC", some (PyVal.str "WH1")⟩
        (PyDict.cons "supplier_remoteId" (PyVal.str "S")
          (PyDict.cons "id" (PyVal.str "1")
            (PyDict.cons "line_items" (PyVal.str "[]") PyDict.nil)))
        (fun _ _ => Except.error "unused") ⟨2025, 6, 1, 0, 0, 0⟩ = (Except.ok (), []) :=
  C7_empty_line_items_skip ⟨"SEC", some (PyVal.str "WH1")⟩ _ _ ⟨2025, 6, 1, 0, 0, 0⟩
    (PyVal.str "S") (PyVal.str "1") (PyVal.str "WH1") rfl rfl rfl rfl

/-- A Python value that is neither a string nor a list. -/
def neitherStrNorList : PyVal → Bool
  | PyVal.str _ => false
  | PyVal.list _ => false
  | _ => true

/-- Claim C9, counterexample: a record with `line_items` bound to the
number `5` (neither string nor list) but with no resolvable warehouse
code makes `process_record` raise the warehouse `ValueError`: it does
not return normally, so the malformed-shape leniency only applies once
field validation has passed. -/
theorem C9_counterexample :
    neitherStrNorList (PyVal.num 5) = true ∧
    process_record ⟨"SEC", Option.none⟩
        (PyDict.cons "supplier_remoteId" (PyVal.str "S")
          (PyDict.cons "id" (PyVal.str "2")
            (PyDict.cons "line_items" (PyVal.num 5) PyDict.nil)))
        (fun _ _ => Except.error "unused") ⟨2025, 6, 1, 0, 0, 0⟩ =
      (Except.error "ValueError: warehouse_code is required but not found in record or config (export_buyOrder_warehouse)",
       []) :=
  ⟨rfl, rfl⟩

/-- Claim C9 (amended): for every record whose required fields are
present and whose warehouse resolves, a `line_items` value that is
neither a string nor a list (a number, a mapping, a boolean or null) is
coerced to the empty list, and `process_record` returns normally without
issuing any SOAP call. The field hypotheses are forced by
`C9_counterexample`. -/
theorem C9_non_list_line_items_coerced (cfg : SherpaConfig) (record : PyDict)
    (respond : String → String → Except String PyVal) (now : DateTime)
    (sup idv wh v : PyVal)
    (hsup : PyDict.lookup "supplier_remoteId" record = some sup)
    (hid : PyDict.lookup "id" record = some idv)
    (hwh : resolve_warehouse record cfg = some wh)
    (hline : PyDict.lookup "line_items" record = some v)
    (hv : neitherStrNorList v = true) :
    resolve_line_items v = Except.ok (PyVal.list PyList.nil) ∧
    process_record cfg record respond now = (Except.ok (), []) := by
  have hres : resolve_line_items v = Except.ok (PyVal.list PyList.nil) := by
    rcases v with s | n | b | _ | xs | es <;> simp [neitherStrNorList] at hv <;>
      simp [resolve_line_items]
  refine ⟨hres, ?_⟩
  have hgetD : (PyDict.lookup "line_items" record).getD (PyVal.list PyList.nil) = v := by
    rw [hline]; rfl
  simp [process_record, hsup, hid, hwh, hgetD, hres, truthy]

/-- Claim C9, witness: a valid record with `line_items` bound to a
mapping completes without any SOAP call. -/
theorem C9_witness :
    process_record ⟨"SEC", some (PyVal.str "WH2")⟩
        (PyDict.cons "supplier_remoteId" (PyVal.str "S")
          (PyDict.cons "id" (PyVal.str "3")
            (PyDict.cons "line_items" (PyVal.dict (PyDict.cons "a" (PyVal.num 1) PyDict.nil))
              PyDict.nil)))
        (fun _ _ => Except.error "unused") ⟨2025, 6, 1, 0, 0, 0⟩ = (Except.ok (), []) :=
  (C9_non_list_line_items_coerced ⟨"SEC", some (PyVal.str "WH2")⟩
    (PyDict.cons "supplier_remoteId" (PyVal.str "S")
      (PyDict.cons "id" (PyVal.str "3")
        (PyDict.cons "line_items" (PyVal.dict (PyDict.cons "a" (PyVal.num 1) PyDict.nil))
          PyDict.nil)))
    (fun _ _ => Except.error "unused") ⟨2025, 6, 1, 0, 0, 0⟩
    (PyVal.str "S") (PyVal.str "3") (PyVal.str "WH2")
    (PyVal.dict (PyDict.cons "a" (PyVal.num 1) PyDict.nil))
    rfl rfl rfl rfl rfl).2

/-! ### Date normalization (claims C2 and C6) -/

theorem digitChar_isDigit_all (d : Nat) : (digitChar d).isDigit = true := by
  match d with
  | 0 => decide
  | 1 => decide
  | 2 => decide
  | 3 => decide
  | 4 => decide
  | 5 => decide
  | 6 => decide
  | 7 => decide
  | 8 => decide
  | n + 9 => rfl

theorem digitChar_val (d : Nat) (h : d < 10) : digitVal (digitChar d) = d := by
  interval_cases d <;> decide

theorem isDigit_ne_Z (c : Char) (h : c.isDigit = true) : ¬ c = 'Z' := by
  intro he; subst he; simp at h

theorem parse2_pad2 (n : Nat) (r : List Char) (h : n < 100) :
    parse2 (pad2 n ++ r) = some (n, r) := by
  have h1 : n / 10 < 10 := by omega
  have h2 : n % 10 < 10 := by omega
  simp [pad2, parse2, digitChar_isDigit_all, digitChar_val _ h1, digitChar_val _ h2]
  omega

theorem parse4_pad4 (n : Nat) (r : List Char) (h : n < 10000) :
    parse4 (pad4 n ++ r) = some (n, r) := by
  have h1 : n / 1000 < 10 := by omega
  have h2 : n / 100 % 10 < 10 := by omega
  have h3 : n / 10 % 10 < 10 := by omega
  have h4 : n % 10 < 10 := by omega
  simp [pad4, parse4, digitChar_isDigit_all, digitChar_val _ h1, digitChar_val _ h2,
    digitChar_val _ h3, digitChar_val _ h4]
  omega

/-- Head-of-list is not a digit (or the list is empty). -/
def headNotDigit : List Char → Prop
  | [] => True
  | c :: _ => c.isDigit = false

theorem takeDigits_append (ds t : List Char) (hds : ∀ c ∈ ds, c.isDigit = true)
    (ht : headNotDigit t) : takeDigits (ds ++ t) = (ds, t) := by
  induction ds with
  | nil =>
    cases t with
    | nil => rfl
    | cons c r => simp [takeDigits, headNotDigit] at ht ⊢; simp [ht]
  | cons c ds ih =>
    have hc : c.isDigit = true := hds c (by simp)
    have := ih (fun x hx => hds x (by simp [hx]))
    simp [takeDigits, hc, this]

theorem natToDecAux_small (fuel n : Nat) (h : n < 10) (hf : 1 ≤ fuel) :
    natToDecAux fuel n = [digitChar n] := by
  cases fuel with
  | zero => omega
  | succ f => simp [natToDecAux, h]

theorem natToDecAux_step (fuel n : Nat) (h : 10 ≤ n) (hf : 1 ≤ fuel) :
    natToDecAux fuel n = natToDecAux (fuel - 1) (n / 10) ++ [digitChar (n % 10)] := by
  cases fuel with
  | zero => omega
  | succ f => simp [natToDecAux, Nat.not_lt.mpr h]

/-- On four-digit years, glibc-style unpadded `%Y` coincides with the
zero-padded four-digit rendering. -/
theorem natToDec_eq_pad4 (y : Nat) (h1 : 1000 ≤ y) (h2 : y ≤ 9999) :
    natToDec y = pad4 y := by
  have s1 : natToDec y = natToDecAux y (y / 10) ++ [digitChar (y % 10)] := by
    unfold natToDec
    rw [natToDecAux_step (y + 1) y (by omega) (by omega)]
    simp
  have s2 : natToDecAux y (y / 10) = natToDecAux (y - 1) (y / 10 / 10) ++ [digitChar (y / 10 % 10)] := by
    rw [natToDecAux_step y (y / 10) (by omega) (by omega)]
  have s3 : natToDecAux (y - 1) (y / 10 / 10) =
      natToDecAux (y - 2) (y / 10 / 10 / 10) ++ [digitChar (y / 10 / 10 % 10)] := by
    have hsub : y - 1 - 1 = y - 2 := by omega
    rw [natToDecAux_step (y - 1) (y / 10 / 10) (by omega) (by omega), hsub]
  have s4 : natToDecAux (y - 2) (y / 10 / 10 / 10) = [digitChar (y / 10 / 10 / 10)] := by
    apply natToDecAux_small _ _ (by omega) (by omega)
  rw [s1, s2, s3, s4]
  have e1 : y / 10 / 10 / 10 = y / 1000 := by omega
  have e2 : y / 10 / 10 % 10 = y / 100 % 10 := by omega
  have e3 : y / 10 % 10 = y / 10 % 10 := rfl
  rw [e1, e2]
  simp [pad4]

def isoBase (y mo d h mi s : Nat) : List Char :=
  pad4 y ++ '-' :: pad2 mo ++ '-' :: pad2 d ++ 'T' :: pad2 h ++ ':' :: pad2 mi ++ ':' :: pad2 s

def TzOffsetTail (tzTail : List Char) : Prop :=
  tzTail = [] ∨ ∃ sgn oh om, (sgn = '+' ∨ sgn = '-') ∧ oh < 100 ∧ om < 100 ∧
    oh * 60 + om < 1440 ∧ tzTail = sgn :: (pad2 oh ++ ':' :: pad2 om)

theorem parseOffsetEnd_ok (tzTail : List Char) (y mo d h mi s : Nat) (ht : TzOffsetTail tzTail) :
    parseOffsetEnd tzTail y mo d h mi s = some ⟨y, mo, d, h, mi, s⟩ := by
  rcases ht with h0 | ⟨sgn, oh, om, hsgn, hoh, hom, hlt, he⟩
  · subst h0; rfl
  · subst he
    have hp1 := parse2_pad2 oh (':' :: pad2 om) hoh
    have hp2 := parse2_pad2 om [] hom
    rw [List.append_nil] at hp2
    rcases hsgn with hs | hs <;> subst hs <;>
      simp [parseOffsetEnd, hp1, hp2, expectC, hlt]

theorem fromiso_render (y mo d h mi s : Nat) (f3 tzTail : List Char)
    (hy1 : 1 ≤ y) (hy2 : y ≤ 9999) (hmo1 : 1 ≤ mo) (hmo2 : mo ≤ 12)
    (hd1 : 1 ≤ d) (hd2 : d ≤ daysInMonth y mo) (hh : h ≤ 23) (hmi : mi ≤ 59) (hs : s ≤ 59)
    (hf3 : ∀ c ∈ f3, c.isDigit = true) (hlen : f3.length = 3) (htz : TzOffsetTail tzTail) :
    fromisoformat (isoBase y mo d h mi s ++ '.' :: f3 ++ tzTail) = some ⟨y, mo, d, h, mi, s⟩ := by
  have hnd : headNotDigit tzTail := by
    rcases htz with h0 | ⟨sgn, oh, om, hsgn, hoh, hom, hlt, he⟩
    · subst h0; trivial
    · subst he
      rcases hsgn with hs | hs <;> subst hs <;> simp [headNotDigit]
  have td : takeDigits (f3 ++ tzTail) = (f3, tzTail) := takeDigits_append _ _ hf3 hnd
  have poe := parseOffsetEnd_ok tzTail y mo d h mi s htz
  have hd31 : daysInMonth y mo ≤ 31 := by
    unfold daysInMonth
    split <;> split <;> omega
  have hd100 : d < 100 := by omega
  have hyne : ¬ y = 0 := by omega
  have hmoF : ¬ (mo < 1 ∨ 12 < mo) := by omega
  have hdF : ¬ (d < 1 ∨ daysInMonth y mo < d) := by omega
  have hdF0 : ¬ (d = 0 ∨ daysInMonth y mo < d) := by omega
  have hhF : ¬ 23 < h := by omega
  have hmiF : ¬ 59 < mi := by omega
  have hsF : ¬ 59 < s := by omega
  simp only [isoBase, List.append_assoc, List.cons_append]
  simp (disch := omega) only [fromisoformat, parse4_pad4, parse2_pad2, expectC,
    hyne, hmoF, hdF, hdF0, hhF, hmiF, hsF, td, hlen, poe, if_true, if_false]
  simp [td, hlen, poe]

theorem matchBase_iso (y mo d h mi s : Nat) (rest : List Char)
    (hy : y ≤ 9999) (hmo : mo < 100) (hd : d < 100) (hh : h < 100) (hmi : mi < 100)
    (hs : s < 100) :
    matchBase (isoBase y mo d h mi s ++ rest) = some (isoBase y mo d h mi s, rest) := by
  simp only [isoBase, pad4, pad2, List.append_assoc, List.cons_append, List.nil_append]
  simp [matchBase, digitChar_isDigit_all]

def TzGroup (tz : List Char) : Prop :=
  tz = [] ∨ tz = ['Z'] ∨ ∃ sgn oh om, (sgn = '+' ∨ sgn = '-') ∧ oh ≤ 23 ∧ om ≤ 59 ∧
    tz = sgn :: (pad2 oh ++ ':' :: pad2 om)

theorem tz_headNotDigit (tz : List Char) (htz : TzGroup tz) : headNotDigit tz := by
  rcases htz with h0 | h0 | ⟨sgn, oh, om, hsgn, hoh, hom, he⟩
  · subst h0; trivial
  · subst h0; simp [headNotDigit]
  · subst he; rcases hsgn with hs | hs <;> subst hs <;> simp [headNotDigit]

theorem matchTz_group (tz : List Char) (htz : TzGroup tz) : matchTz tz = (tz, []) := by
  rcases htz with h0 | h0 | ⟨sgn, oh, om, hsgn, hoh, hom, he⟩
  · subst h0; rfl
  · subst h0; rfl
  · subst he
    rcases hsgn with hs | hs <;> subst hs <;>
      simp [pad2, matchTz, digitChar_isDigit_all]

theorem matchIsoHead_iso (y mo d h mi s : Nat) (frac tz : List Char)
    (hy : y ≤ 9999) (hmo : mo < 100) (hd : d < 100) (hh : h < 100) (hmi : mi < 100)
    (hs : s < 100) (hfrac : ∀ c ∈ frac, c.isDigit = true) (hne : frac ≠ [])
    (htz : TzGroup tz) :
    matchIsoHead (isoBase y mo d h mi s ++ '.' :: frac ++ tz) =
      some (isoBase y mo d h mi s, frac, tz) := by
  have hmb := matchBase_iso y mo d h mi s ('.' :: (frac ++ tz)) hy hmo hd hh hmi hs
  have htd := takeDigits_append frac tz hfrac (tz_headNotDigit tz htz)
  have hmt := matchTz_group tz htz
  simp only [matchIsoHead, List.cons_append, List.append_assoc, hmb, htd, hmt]
  simp [hne]

theorem digitChar_ne_Z (n : Nat) : ¬ digitChar n = 'Z' :=
  isDigit_ne_Z _ (digitChar_isDigit_all n)

theorem replaceZ_append (a b : List Char) : replaceZ (a ++ b) = replaceZ a ++ replaceZ b := by
  simp [replaceZ]

theorem replaceZ_digits (l : List Char) (h : ∀ c ∈ l, c.isDigit = true) : replaceZ l = l := by
  induction l with
  | nil => rfl
  | cons c t ih =>
    have hc : ¬ c = 'Z' := isDigit_ne_Z c (h c (by simp))
    have ih2 := ih (fun x hx => h x (by simp [hx]))
    simp only [replaceZ, List.flatMap_cons] at ih2 ⊢
    simp [hc, ih2]

theorem replaceZ_isoBase (y mo d h mi s : Nat) :
    replaceZ (isoBase y mo d h mi s) = isoBase y mo d h mi s := by
  simp [isoBase, pad4, pad2, replaceZ, digitChar_ne_Z]

theorem ljust3_digits (frac : List Char) (h : ∀ c ∈ frac, c.isDigit = true) :
    ∀ c ∈ ljust3 frac, c.isDigit = true := by
  intro c hc
  simp only [ljust3, List.mem_append] at hc
  rcases hc with hc | hc
  · exact h c (List.take_subset 3 frac hc)
  · have := List.eq_of_mem_replicate hc
    subst this
    decide

theorem ljust3_len (frac : List Char) (h : frac ≠ []) : (ljust3 frac).length = 3 := by
  have hpos : 0 < frac.length := List.length_pos.mpr h
  simp only [ljust3, List.length_append, List.length_take, List.length_replicate]
  omega

theorem strftime000_iso (y mo d h mi s : Nat) (h1 : 1000 ≤ y) (h2 : y ≤ 9999) :
    strftime000 ⟨y, mo, d, h, mi, s⟩ = isoBase y mo d h mi s ++ ['.', '0', '0', '0'] := by
  simp [strftime000, isoBase, natToDec_eq_pad4 y h1 h2, List.append_assoc]

theorem replaceZ_nil : replaceZ [] = [] := rfl

theorem replaceZ_cons (c : Char) (t : List Char) :
    replaceZ (c :: t) = (if c = 'Z' then "+00:00".data else [c]) ++ replaceZ t := by
  simp [replaceZ]

theorem replaceZ_pad2 (n : Nat) : replaceZ (pad2 n) = pad2 n := by
  apply replaceZ_digits
  intro c hc
  simp [pad2] at hc
  rcases hc with h | h <;> subst h <;> exact digitChar_isDigit_all _

theorem C2_normalization (y mo d h mi s : Nat) (frac tz : List Char)
    (hy1 : 1000 ≤ y) (hy2 : y ≤ 9999) (hmo1 : 1 ≤ mo) (hmo2 : mo ≤ 12)
    (hd1 : 1 ≤ d) (hd2 : d ≤ daysInMonth y mo) (hh : h ≤ 23) (hmi : mi ≤ 59) (hs : s ≤ 59)
    (hfrac : ∀ c ∈ frac, c.isDigit = true) (hne : frac ≠ []) (hflen : frac.length ≤ 6)
    (htz : TzGroup tz) :
    normalizeISO (String.mk (isoBase y mo d h mi s ++ '.' :: frac ++ tz)) =
      some (String.mk (isoBase y mo d h mi s ++ ['.', '0', '0', '0'])) := by
  have hd31 : daysInMonth y mo ≤ 31 := by
    unfold daysInMonth
    split <;> split <;> omega
  have hmh := matchIsoHead_iso y mo d h mi s frac tz (by omega) (by omega) (by omega)
    (by omega) (by omega) (by omega) hfrac hne htz
  have hl3d := ljust3_digits frac hfrac
  have hl3l := ljust3_len frac hne
  have step1 : normalizeISO (String.mk (isoBase y mo d h mi s ++ '.' :: frac ++ tz)) =
      (fromisoformat (replaceZ (isoBase y mo d h mi s ++ '.' :: ljust3 frac ++ tz))).map
        (fun dt => String.mk (strftime000 dt)) := by
    unfold normalizeISO
    simp only [hmh]
  rw [step1]
  have hbase := replaceZ_isoBase y mo d h mi s
  have hdigits := replaceZ_digits (ljust3 frac) hl3d
  have hrep : ∃ tzTail, TzOffsetTail tzTail ∧
      replaceZ (isoBase y mo d h mi s ++ '.' :: ljust3 frac ++ tz) =
        isoBase y mo d h mi s ++ '.' :: ljust3 frac ++ tzTail := by
    rcases htz with h0 | h0 | ⟨sgn, oh, om, hsgn, hoh, hom, he⟩
    · refine ⟨[], Or.inl rfl, ?_⟩
      subst h0
      simp only [replaceZ_append, replaceZ_cons, replaceZ_nil, hbase, hdigits,
        List.cons_append, List.nil_append, List.append_nil]
      simp
    · refine ⟨'+' :: (pad2 0 ++ ':' :: pad2 0),
        Or.inr ⟨'+', 0, 0, Or.inl rfl, by omega, by omega, by omega, rfl⟩, ?_⟩
      subst h0
      simp only [replaceZ_append, replaceZ_cons, replaceZ_nil, hbase, hdigits,
        List.cons_append, List.nil_append, List.append_nil]
      simp [pad2, digitChar]
    · refine ⟨sgn :: (pad2 oh ++ ':' :: pad2 om),
        Or.inr ⟨sgn, oh, om, hsgn, by omega, by omega, by omega, rfl⟩, ?_⟩
      subst he
      have hsgnZ : ¬ sgn = 'Z' := by
        rcases hsgn with hx | hx <;> subst hx <;> decide
      simp only [replaceZ_append, replaceZ_cons, replaceZ_nil, replaceZ_pad2, hbase, hdigits,
        hsgnZ, if_false, List.cons_append, List.nil_append, List.append_nil]
      simp
  rcases hrep with ⟨tzTail, htzTail, hrepEq⟩
  rw [hrepEq]
  rw [fromiso_render y mo d h mi s (ljust3 frac) tzTail (by omega) hy2 hmo1 hmo2 hd1 hd2 hh hmi hs
    hl3d hl3l htzTail]
  simp [strftime000_iso y mo d h mi s hy1 hy2]

set_option maxRecDepth 4000 in
/-- Claim C2, counterexample: the valid ISO input
`2025-11-28T00:00:00.123456Z` (6 fractional digits, `Z` offset) is
normalized to `2025-11-28T00:00:00.000` — the fractional part of the
output is the literal `000` written into the `strftime` format string,
not the truncation `123` of the input's fractional seconds. -/
theorem C2_counterexample :
    normalizeISO "2025-11-28T00:00:00.123456Z" = some "2025-11-28T00:00:00.000" ∧
    ¬ normalizeISO "2025-11-28T00:00:00.123456Z" = some "2025-11-28T00:00:00.123" := by
  constructor
  · decide
  · decide

/-- Claim C2 (amended): for every valid ISO-8601 timestamp with year in
`[1000, 9999]`, 1-6 fractional-second digits and any of `Z`, `+HH:MM`,
`-HH:MM` or no offset, the normalized string is the input's date-time
portion in the fixed format `YYYY-MM-DDTHH:MM:SS.mmm` — but the
fractional part is always `000` (the truncated/padded input fraction is
used only to build the intermediate string handed to `fromisoformat`;
`strftime("%Y-%m-%dT%H:%M:%S.000")` then discards it), and the offset is
dropped without converting the clock time. -/
theorem C2_normalized_fraction_is_zero (y mo d h mi s : Nat) (frac tz : List Char)
    (hy1 : 1000 ≤ y) (hy2 : y ≤ 9999) (hmo1 : 1 ≤ mo) (hmo2 : mo ≤ 12)
    (hd1 : 1 ≤ d) (hd2 : d ≤ daysInMonth y mo) (hh : h ≤ 23) (hmi : mi ≤ 59) (hs : s ≤ 59)
    (hfrac : ∀ c ∈ frac, c.isDigit = true) (hne : frac ≠ []) (hflen : frac.length ≤ 6)
    (htz : TzGroup tz) :
    normalizeISO (String.mk (isoBase y mo d h mi s ++ '.' :: frac ++ tz)) =
      some (String.mk (isoBase y mo d h mi s ++ ['.', '0', '0', '0'])) :=
  C2_normalization y mo d h mi s frac tz hy1 hy2 hmo1 hmo2 hd1 hd2 hh hmi hs hfrac hne hflen htz

/-- Claim C2, witness: `2026-01-02T03:04:05.9Z` normalizes to
`2026-01-02T03:04:05.000`. -/
theorem C2_witness :
    normalizeISO (String.mk (isoBase 2026 1 2 3 4 5 ++ '.' :: ['9'] ++ ['Z'])) =
      some (String.mk (isoBase 2026 1 2 3 4 5 ++ ['.', '0', '0', '0'])) :=
  C2_normalized_fraction_is_zero 2026 1 2 3 4 5 ['9'] ['Z'] (by omega) (by omega) (by omega)
    (by omega) (by omega) (by decide) (by omega) (by omega) (by omega) (by decide) (by decide)
    (by decide) (Or.inr (Or.inl rfl))

/-- Calendar validity of a `datetime` value, as guaranteed by the Python
`datetime` constructor. -/
def ValidDT (dt : DateTime) : Prop :=
  1 ≤ dt.month ∧ dt.month ≤ 12 ∧ 1 ≤ dt.day ∧ dt.day ≤ daysInMonth dt.year dt.month ∧
    dt.hour ≤ 23 ∧ dt.minute ≤ 59 ∧ dt.second ≤ 59

instance (dt : DateTime) : Decidable (ValidDT dt) := by
  unfold ValidDT; infer_instance

theorem daysInMonth_pos (y m : Nat) : 1 ≤ daysInMonth y m := by
  unfold daysInMonth
  split <;> split <;> omega

theorem nextDay_valid (dt : DateTime) (h : ValidDT dt) : ValidDT (nextDay dt) := by
  obtain ⟨h1, h2, h3, h4, h5, h6, h7⟩ := h
  unfold nextDay
  split
  · rename_i hlt
    exact ⟨h1, h2, by show 1 ≤ dt.day + 1; omega,
      by show dt.day + 1 ≤ daysInMonth dt.year dt.month; omega, h5, h6, h7⟩
  · split
    · rename_i hge hlt12
      exact ⟨by show 1 ≤ dt.month + 1; omega, by show dt.month + 1 ≤ 12; omega,
        by show (1 : Nat) ≤ 1; omega,
        by show (1 : Nat) ≤ daysInMonth dt.year (dt.month + 1); exact daysInMonth_pos _ _,
        h5, h6, h7⟩
    · exact ⟨by show (1 : Nat) ≤ 1; omega, by show (1 : Nat) ≤ 12; omega,
        by show (1 : Nat) ≤ 1; omega,
        by show (1 : Nat) ≤ daysInMonth (dt.year + 1) 1; exact daysInMonth_pos _ _,
        h5, h6, h7⟩

theorem nextDay_year (dt : DateTime) :
    dt.year ≤ (nextDay dt).year ∧ (nextDay dt).year ≤ dt.year + 1 := by
  unfold nextDay
  split
  · simp
  · split <;> simp

theorem addDays_valid (n : Nat) (dt : DateTime) (h : ValidDT dt) : ValidDT (addDays n dt) := by
  induction n generalizing dt with
  | zero => exact h
  | succ m ih => exact ih (nextDay dt) (nextDay_valid dt h)

theorem addDays_year (n : Nat) (dt : DateTime) :
    dt.year ≤ (addDays n dt).year ∧ (addDays n dt).year ≤ dt.year + n := by
  induction n generalizing dt with
  | zero => simp [addDays]
  | succ m ih =>
    have h1 := nextDay_year dt
    have h2 := ih (nextDay dt)
    simp only [addDays]
    omega

/-- Any `strftime("%Y-%m-%dT%H:%M:%S.000")` output of a valid datetime
with a four-digit year matches the fixed `YYYY-MM-DDTHH:MM:SS.mmm`
shape. -/
theorem strftime000_fixedFormat (dt : DateTime) (hv : ValidDT dt) (hy1 : 1000 ≤ dt.year)
    (hy2 : dt.year ≤ 9999) : isFixedFormat (String.mk (strftime000 dt)) = true := by
  obtain ⟨h1, h2, h3, h4, h5, h6, h7⟩ := hv
  rw [show strftime000 dt = isoBase dt.year dt.month dt.day dt.hour dt.minute dt.second ++
      ['.', '0', '0', '0'] from strftime000_iso dt.year dt.month dt.day dt.hour dt.minute
      dt.second hy1 hy2]
  simp only [isoBase, pad4, pad2, List.cons_append, List.nil_append, List.append_assoc]
  simp [isFixedFormat, digitChar_isDigit_all]

/-- Claim C6: date normalization never escalates a failure — an absent
`created_at` and any string whose parse fails both fall back
deterministically to `now + 30 days`, rendered in the same fixed
`YYYY-MM-DDTHH:MM:SS.mmm` millisecond-precision format (the model is a
total function: the `except` handler absorbs every parse failure, which
is only logged as a warning). -/
theorem C6_fallback_never_raises (s : String) (now : DateTime) (hv : ValidDT now)
    (hy1 : 1000 ≤ now.year) (hy2 : now.year ≤ 9900)
    (hfail : normalizeISO s = Option.none) :
    format_expected_date Option.none now = fallback30 now ∧
    format_expected_date (some (PyVal.str s)) now = fallback30 now ∧
    isFixedFormat (fallback30 now) = true := by
  refine ⟨rfl, ?_, ?_⟩
  · by_cases hs : s = ""
    · subst hs; rfl
    · simp [format_expected_date, truthy, hs, hfail]
  · unfold fallback30
    have h30 := addDays_year 30 now
    exact strftime000_fixedFormat (addDays 30 now) (addDays_valid 30 now hv)
      (by omega) (by omega)

/-- Claim C6, witness: the unparseable input `not-a-date` falls back to
`now + 30 days` in the fixed format. -/
theorem C6_witness :
    format_expected_date (some (PyVal.str "not-a-date")) ⟨2025, 12, 15, 10, 30, 0⟩ =
      fallback30 ⟨2025, 12, 15, 10, 30, 0⟩ ∧
    isFixedFormat (fallback30 ⟨2025, 12, 15, 10, 30, 0⟩) = true :=
  ⟨(C6_fallback_never_raises "not-a-date" ⟨2025, 12, 15, 10, 30, 0⟩ (by decide) (by decide)
      (by decide) (by decide)).2.1,
   (C6_fallback_never_raises "not-a-date" ⟨2025, 12, 15, 10, 30, 0⟩ (by decide) (by decide)
      (by decide) (by decide)).2.2⟩
